import Mathlib

/-!
Verification of the fallback-aware model resolver of `tmuxbot`
(`tmuxbot/model/factory.py`), shallowly embedded in Lean 4.

The embedding mirrors the source:
* `ProfileConfig`, `AgentConfig`, `Config` mirror the dataclasses of
  `tmuxbot/config/settings.py` (the two conversation scalars `max_history`
  and `conversation_timeout` are unused by the resolver and elided).
  Python `Dict` fields are embedded as association lists queried with
  `List.lookup`, matching `dict.get`.
* `createModelForProfile` embeds `ModelFactory._create_model_for_profile`.
  The dynamic provider machinery (importlib + provider `create_model`) is
  opaque to the resolver, so its behaviour at each construction call is a
  parameter of type `ProviderOutcome`: the call can raise (any of the
  wrapped `ValueError`/`RuntimeError` exits, all of which log an error and
  re-raise), or return an optional model.  Raising is an explicit
  `Except.error`, so that the caller's `try/except` is visible.
* `tryProfiles` embeds the candidate loop of `ModelFactory.create_model`
  (`for profile_name in profile_names: ...`), with the per-call provider
  behaviour given as a function of the candidate position.  Besides the
  Python return value (`result : Option Model`) the embedding returns the
  observables the spec talks about: the emitted warning/error log events
  in order (`logs`; the two purely internal debug lines of
  `_create_model_for_profile` are elided, the `logger.debug` for a primary
  success is kept as `usingPrimary` since the spec mentions it), the
  candidates attempted in order (`tried`), the number of calls to
  `_create_model_for_profile` (`attempts`), and the final value of the
  loop's `last_error` local (`lastError`).
* `validateFallbackConfiguration` and `mkModelFactory` embed
  `ModelFactory._validate_fallback_configuration` and `__init__`.
-/

/-- Opaque handle for a constructed provider model. -/
abbrev Model := Nat

/-- Opaque exception value (the resolver only stores and logs it). -/
abbrev Err := String

/-- Mirror of `ProfileConfig` in `tmuxbot/config/settings.py`.
`settings` is an opaque blob to the resolver and is embedded as a string. -/
structure ProfileConfig where
  provider : String
  api_key : String
  model : String
  base_url : Option String := none
  settings : Option String := none
  deriving Repr, DecidableEq

/-- Mirror of `AgentConfig` in `tmuxbot/config/settings.py`. -/
structure AgentConfig where
  profile : String
  instructions : Option String := none
  fallbacks : Option (List String) := none
  deriving Repr, DecidableEq

/-- Mirror of `Config` (profiles and agents; the two conversation scalars
are unused by the resolver and elided).  Python dict keys are unique; where
a proof needs that, it assumes `Nodup` of the key list. -/
structure Config where
  profiles : List (String × ProfileConfig)
  agents : List (String × AgentConfig)
  deriving Repr, DecidableEq

/-- Behaviour of one call into the opaque provider machinery
(`importlib` + the provider module's `create_model`): it either raises
(after `_create_model_for_profile` wraps and logs it) or returns an
optional model (`None` is possible through the untyped call). -/
inductive ProviderOutcome where
  | raises (e : Err)
  | ret (m : Option Model)
  deriving Repr, DecidableEq

/-- The warning/error log events of `factory.py`, in symbolic form.
`agentNotFound` = "Agent configuration not found: …" (error);
`profileNotFound` = "Profile not found: …" (error, inside
`_create_model_for_profile`); `providerError` = the error logged inside
`_create_model_for_profile`'s exception handlers before re-raising;
`profileFailedWarning` = "Profile '…' failed for agent '…': …" (warning);
`fallbackUsed` = "Primary profile '…' failed, using fallback '…' for agent
'…'" (warning); `usingPrimary` = "Using primary profile '…' for agent '…'"
(debug); `allProfilesFailed` = "All profiles failed for agent '…'. Last
error: …" (error); `noValidProfiles` = "No valid profiles found for agent
'…'" (error); `fallbackNotDefined` = the `__init__` validation warning. -/
inductive LogEvent where
  | agentNotFound (agentType : String)
  | profileNotFound (profileName : String)
  | providerError (e : Err)
  | profileFailedWarning (profileName agentType : String) (e : Err)
  | fallbackUsed (primary fallback agentType : String)
  | usingPrimary (profileName agentType : String)
  | allProfilesFailed (agentType : String) (e : Err)
  | noValidProfiles (agentType : String)
  | fallbackNotDefined (agentType fallback : String)
  deriving Repr, DecidableEq

/-- Embeds `ModelFactory._create_model_for_profile`: look the profile up;
if absent, log "Profile not found" and return `None` (no exception); if
present, the provider machinery runs with the given outcome — raising is an
`Except.error` (the function logs an error and re-raises in every handler),
otherwise the provider's optional model is returned. -/
def createModelForProfile (cfg : Config) (outcome : ProviderOutcome)
    (profileName : String) : Except Err (Option Model) × List LogEvent :=
  match List.lookup profileName cfg.profiles with
  | none => (Except.ok none, [LogEvent.profileNotFound profileName])
  | some _ =>
    match outcome with
    | ProviderOutcome.raises e => (Except.error e, [LogEvent.providerError e])
    | ProviderOutcome.ret m => (Except.ok m, [])

/-- Result of one `create_model` call, with the observables instrumented:
`result` is the Python return value; `logs` the emitted events in order;
`tried` the candidates passed to `_create_model_for_profile`, in order;
`attempts` the number of such calls; `lastError` the final value of the
`last_error` local. -/
structure ResolveOutcome where
  result : Option Model
  logs : List LogEvent
  tried : List String
  attempts : Nat
  lastError : Option Err
  deriving Repr, DecidableEq

/-- Embeds the candidate loop of `ModelFactory.create_model`
(`for profile_name in profile_names:` with the surrounding `try/except`
and the exhaustion epilogue).  `behavior k` is the provider outcome of the
`k`-th remaining construction call; `lastError` threads the `last_error`
local.  Note the source branches the success log on
`profile_name != agent_config.profile` (name equality with the primary),
and that only the `except` arm updates `last_error` and emits the
per-candidate warning — a `None` return just falls through the loop. -/
def tryProfiles (cfg : Config) (primary agentType : String)
    (behavior : Nat → ProviderOutcome) :
    List String → Option Err → ResolveOutcome
  | [], lastError =>
    { result := none
      logs := [match lastError with
               | some e => LogEvent.allProfilesFailed agentType e
               | none => LogEvent.noValidProfiles agentType]
      tried := []
      attempts := 0
      lastError := lastError }
  | profileName :: rest, lastError =>
    match createModelForProfile cfg (behavior 0) profileName with
    | (Except.ok (some m), logs) =>
      { result := some m
        logs := logs ++ [if profileName = primary then
                           LogEvent.usingPrimary profileName agentType
                         else
                           LogEvent.fallbackUsed primary profileName agentType]
        tried := [profileName]
        attempts := 1
        lastError := lastError }
    | (Except.ok none, logs) =>
      let o := tryProfiles cfg primary agentType (fun k => behavior (k + 1))
        rest lastError
      { o with logs := logs ++ o.logs
               tried := profileName :: o.tried
               attempts := o.attempts + 1 }
    | (Except.error e, logs) =>
      let o := tryProfiles cfg primary agentType (fun k => behavior (k + 1))
        rest (some e)
      { o with logs := logs ++
                 LogEvent.profileFailedWarning profileName agentType e :: o.logs
               tried := profileName :: o.tried
               attempts := o.attempts + 1 }

/-- The candidate list `[agent_config.profile] + fallbacks`:
`profile_names = [agent_config.profile]; if agent_config.fallbacks:
profile_names.extend(...)`.  (Python's truthiness test skips the extend for
both `None` and `[]`; extending by `[]` is a no-op, so `getD []` is
extensionally identical.) -/
def profileNames (ac : AgentConfig) : List String :=
  ac.profile :: ac.fallbacks.getD []

/-- Embeds `ModelFactory.create_model`: agent lookup (absence logs one
error and returns `None` with no construction attempt), then the candidate
loop. -/
def createModel (cfg : Config) (behavior : Nat → ProviderOutcome)
    (agentType : String) : ResolveOutcome :=
  match List.lookup agentType cfg.agents with
  | none =>
    { result := none
      logs := [LogEvent.agentNotFound agentType]
      tried := []
      attempts := 0
      lastError := none }
  | some agentConfig =>
    tryProfiles cfg agentConfig.profile agentType behavior
      (profileNames agentConfig) none

/-- Embeds `ModelFactory._validate_fallback_configuration`: for each agent,
for each fallback name absent from `config.profiles`, one warning.  (The
Python truthiness guard on `fallbacks` only skips iterating an empty or
absent list, which produces nothing anyway.) -/
def validateFallbackConfiguration (cfg : Config) : List LogEvent :=
  cfg.agents.flatMap (fun p =>
    (p.2.fallbacks.getD []).filterMap (fun f =>
      if (List.lookup f cfg.profiles).isNone then
        some (LogEvent.fallbackNotDefined p.1 f)
      else none))

/-- Embeds `ModelFactory.__init__`: store the configuration unchanged and
run the (warning-only) fallback validation pass. -/
def mkModelFactory (cfg : Config) : Config × List LogEvent :=
  (cfg, validateFallbackConfiguration cfg)

/-- A candidate fails when its profile is missing, its construction raises,
or its construction returns `None`. -/
def candidateFails (cfg : Config) (outcome : ProviderOutcome)
    (profileName : String) : Bool :=
  (List.lookup profileName cfg.profiles).isNone ||
    (match outcome with
     | ProviderOutcome.raises _ => true
     | ProviderOutcome.ret m => m.isNone)

/-- The value `last_error` holds after scanning the given candidates:
only a raising construction call (on a candidate whose profile exists)
updates it. -/
def lastErrAux (cfg : Config) (behavior : Nat → ProviderOutcome) :
    List String → Option Err → Option Err
  | [], acc => acc
  | profileName :: rest, acc =>
    match List.lookup profileName cfg.profiles, behavior 0 with
    | none, _ => lastErrAux cfg (fun k => behavior (k + 1)) rest acc
    | some _, ProviderOutcome.raises e =>
      lastErrAux cfg (fun k => behavior (k + 1)) rest (some e)
    | some _, ProviderOutcome.ret _ =>
      lastErrAux cfg (fun k => behavior (k + 1)) rest acc

/-- The error the loop epilogue logs on exhaustion, as a function of the
final `last_error`. -/
def exhaustionLog (agentType : String) : Option Err → LogEvent
  | some e => LogEvent.allProfilesFailed agentType e
  | none => LogEvent.noValidProfiles agentType

/-! ### Concrete configurations and provider behaviours for evaluation -/

/-- One profile `p1`; agent `ag` with primary `p1` and duplicated dangling
fallback `p2`. -/
def cfgW : Config :=
  { profiles := [("p1", { provider := "openai", api_key := "k",
                          model := "gpt-4o" })],
    agents := [("ag", { profile := "p1", fallbacks := some ["p2", "p2"] })] }

/-- Empty profile mapping; agent `a` with dangling primary `p` and no
fallbacks. -/
def cfgDanglingPrimary : Config :=
  { profiles := [], agents := [("a", { profile := "p" })] }

/-- One profile `p`; agent `a` using it with no fallbacks. -/
def cfgOneProfile : Config :=
  { profiles := [("p", { provider := "openai", api_key := "k",
                         model := "gpt-4o" })],
    agents := [("a", { profile := "p" })] }

/-- One profile `p1`; agent `a` with primary `p1` and the SAME name again
as its only fallback. -/
def cfgDupPrimary : Config :=
  { profiles := [("p1", { provider := "openai", api_key := "k",
                          model := "gpt-4o" })],
    agents := [("a", { profile := "p1", fallbacks := some ["p1"] })] }

/-- One profile `q`; agent `a` whose primary `missing` is dangling while
its only fallback `q` resolves. -/
def cfgPrimaryOnlyDangling : Config :=
  { profiles := [("q", { provider := "openai", api_key := "k",
                         model := "gpt-4o" })],
    agents := [("a", { profile := "missing", fallbacks := some ["q"] })] }

/-- Provider behaviour: every construction call raises. -/
def behaviorAllRaise : Nat → ProviderOutcome :=
  fun _ => ProviderOutcome.raises "boom"

/-- Provider behaviour: every construction call returns a model. -/
def behaviorAllOk : Nat → ProviderOutcome :=
  fun _ => ProviderOutcome.ret (some 7)

/-- Provider behaviour: every construction call returns `None`. -/
def behaviorAllNull : Nat → ProviderOutcome :=
  fun _ => ProviderOutcome.ret none

/-- Provider behaviour: the first construction call raises, later ones
return a model. -/
def behaviorRetryOk : Nat → ProviderOutcome :=
  fun k => if k = 0 then ProviderOutcome.raises "boom"
           else ProviderOutcome.ret (some 7)

/-! ### Branch equations for the candidate loop -/

theorem createModelForProfile_missing (cfg : Config) (o : ProviderOutcome)
    (n : String) (h : List.lookup n cfg.profiles = none) :
    createModelForProfile cfg o n =
      (Except.ok none, [LogEvent.profileNotFound n]) := by
  simp [createModelForProfile, h]

theorem tryProfiles_nil (cfg : Config) (primary agentType : String)
    (behavior : Nat → ProviderOutcome) (le : Option Err) :
    tryProfiles cfg primary agentType behavior [] le =
      { result := none, logs := [exhaustionLog agentType le], tried := [],
        attempts := 0, lastError := le } := by
  cases le <;> rfl

theorem tryProfiles_cons_missing (cfg : Config) (primary agentType : String)
    (behavior : Nat → ProviderOutcome) (n : String) (rest : List String)
    (le : Option Err) (h : List.lookup n cfg.profiles = none) :
    tryProfiles cfg primary agentType behavior (n :: rest) le =
      (let o := tryProfiles cfg primary agentType (fun k => behavior (k + 1))
        rest le
       { o with logs := LogEvent.profileNotFound n :: o.logs,
                tried := n :: o.tried, attempts := o.attempts + 1 }) := by
  simp [tryProfiles, createModelForProfile, h]

theorem tryProfiles_cons_raises (cfg : Config) (primary agentType : String)
    (behavior : Nat → ProviderOutcome) (n : String) (rest : List String)
    (le : Option Err) (p : ProfileConfig) (e : Err)
    (hp : List.lookup n cfg.profiles = some p)
    (hb : behavior 0 = ProviderOutcome.raises e) :
    tryProfiles cfg primary agentType behavior (n :: rest) le =
      (let o := tryProfiles cfg primary agentType (fun k => behavior (k + 1))
        rest (some e)
       { o with logs := LogEvent.providerError e ::
                  LogEvent.profileFailedWarning n agentType e :: o.logs,
                tried := n :: o.tried, attempts := o.attempts + 1 }) := by
  simp [tryProfiles, createModelForProfile, hp, hb]

theorem tryProfiles_cons_retNone (cfg : Config) (primary agentType : String)
    (behavior : Nat → ProviderOutcome) (n : String) (rest : List String)
    (le : Option Err) (p : ProfileConfig)
    (hp : List.lookup n cfg.profiles = some p)
    (hb : behavior 0 = ProviderOutcome.ret none) :
    tryProfiles cfg primary agentType behavior (n :: rest) le =
      (let o := tryProfiles cfg primary agentType (fun k => behavior (k + 1))
        rest le
       { o with tried := n :: o.tried, attempts := o.attempts + 1 }) := by
  simp [tryProfiles, createModelForProfile, hp, hb]

theorem tryProfiles_cons_success (cfg : Config) (primary agentType : String)
    (behavior : Nat → ProviderOutcome) (n : String) (rest : List String)
    (le : Option Err) (p : ProfileConfig) (m : Model)
    (hp : List.lookup n cfg.profiles = some p)
    (hb : behavior 0 = ProviderOutcome.ret (some m)) :
    tryProfiles cfg primary agentType behavior (n :: rest) le =
      { result := some m,
        logs := [if n = primary then LogEvent.usingPrimary n agentType
                 else LogEvent.fallbackUsed primary n agentType],
        tried := [n], attempts := 1, lastError := le } := by
  simp [tryProfiles, createModelForProfile, hp, hb]

/-! ### Loop invariants -/

/-- The candidates attempted are always an initial segment of the list
scanned. -/
theorem tryProfiles_tried_initial (cfg : Config) (primary agentType : String) :
    ∀ (names : List String) (behavior : Nat → ProviderOutcome)
      (le : Option Err),
    ∃ t, (tryProfiles cfg primary agentType behavior names le).tried ++ t =
      names := by
  intro names
  induction names with
  | nil => intro behavior le; exact ⟨[], by simp [tryProfiles_nil]⟩
  | cons n rest ih =>
    intro behavior le
    cases hl : List.lookup n cfg.profiles with
    | none =>
      obtain ⟨t, ht⟩ := ih (fun k => behavior (k + 1)) le
      exact ⟨t, by rw [tryProfiles_cons_missing cfg primary agentType behavior
        n rest le hl]; simpa using ht⟩
    | some p =>
      cases hb : behavior 0 with
      | raises e =>
        obtain ⟨t, ht⟩ := ih (fun k => behavior (k + 1)) (some e)
        exact ⟨t, by rw [tryProfiles_cons_raises cfg primary agentType behavior
          n rest le p e hl hb]; simpa using ht⟩
      | ret m =>
        cases m with
        | none =>
          obtain ⟨t, ht⟩ := ih (fun k => behavior (k + 1)) le
          exact ⟨t, by rw [tryProfiles_cons_retNone cfg primary agentType
            behavior n rest le p hl hb]; simpa using ht⟩
        | some m =>
          exact ⟨rest, by rw [tryProfiles_cons_success cfg primary agentType
            behavior n rest le p m hl hb]; simp⟩

/-- When every candidate fails, the loop scans the whole list (one
construction call per candidate, duplicates included), returns `none`,
ends with `last_error` as accumulated by `lastErrAux`, and its last log
event is the exhaustion error. -/
theorem tryProfiles_exhausted (cfg : Config) (primary agentType : String) :
    ∀ (names : List String) (behavior : Nat → ProviderOutcome)
      (le : Option Err),
    (∀ i (h : i < names.length), candidateFails cfg (behavior i) names[i]) →
    (tryProfiles cfg primary agentType behavior names le).result = none ∧
    (tryProfiles cfg primary agentType behavior names le).tried = names ∧
    (tryProfiles cfg primary agentType behavior names le).attempts =
      names.length ∧
    (tryProfiles cfg primary agentType behavior names le).lastError =
      lastErrAux cfg behavior names le ∧
    ∃ pre, (tryProfiles cfg primary agentType behavior names le).logs =
      pre ++ [exhaustionLog agentType (lastErrAux cfg behavior names le)] := by
  intro names
  induction names with
  | nil =>
    intro behavior le _
    refine ⟨?_, ?_, ?_, ?_, [], ?_⟩ <;> simp [tryProfiles_nil, lastErrAux]
  | cons n rest ih =>
    intro behavior le hfail
    have h0 := hfail 0 (by simp)
    have hrest : ∀ i (h : i < rest.length),
        candidateFails cfg ((fun k => behavior (k + 1)) i) rest[i] := by
      intro i h
      simpa using hfail (i + 1) (by simpa using Nat.succ_lt_succ h)
    cases hl : List.lookup n cfg.profiles with
    | none =>
      obtain ⟨ih1, ih2, ih3, ih4, pre, ih5⟩ :=
        ih (fun k => behavior (k + 1)) le hrest
      rw [tryProfiles_cons_missing cfg primary agentType behavior n rest le hl]
      have hle : lastErrAux cfg behavior (n :: rest) le =
          lastErrAux cfg (fun k => behavior (k + 1)) rest le := by
        simp [lastErrAux, hl]
      refine ⟨by simpa using ih1, by simpa using ih2, by simpa using ih3,
        ?_, LogEvent.profileNotFound n :: pre, ?_⟩
      · simpa [hle] using ih4
      · simpa [hle] using ih5
    | some p =>
      cases hb : behavior 0 with
      | raises e =>
        obtain ⟨ih1, ih2, ih3, ih4, pre, ih5⟩ :=
          ih (fun k => behavior (k + 1)) (some e) hrest
        rw [tryProfiles_cons_raises cfg primary agentType behavior n rest le
          p e hl hb]
        have hle : lastErrAux cfg behavior (n :: rest) le =
            lastErrAux cfg (fun k => behavior (k + 1)) rest (some e) := by
          simp [lastErrAux, hl, hb]
        refine ⟨by simpa using ih1, by simpa using ih2, by simpa using ih3,
          ?_, LogEvent.providerError e ::
            LogEvent.profileFailedWarning n agentType e :: pre, ?_⟩
        · simpa [hle] using ih4
        · simpa [hle] using ih5
      | ret m =>
        cases m with
        | none =>
          obtain ⟨ih1, ih2, ih3, ih4, pre, ih5⟩ :=
            ih (fun k => behavior (k + 1)) le hrest
          rw [tryProfiles_cons_retNone cfg primary agentType behavior n rest
            le p hl hb]
          have hle : lastErrAux cfg behavior (n :: rest) le =
              lastErrAux cfg (fun k => behavior (k + 1)) rest le := by
            simp [lastErrAux, hl, hb]
          refine ⟨by simpa using ih1, by simpa using ih2, by simpa using ih3,
            ?_, pre, ?_⟩
          · simpa [hle] using ih4
          · simpa [hle] using ih5
        | some m =>
          exact absurd h0 (by simp [candidateFails, hl, hb])

/-- When the loop returns a model, the last candidate attempted is the one
that succeeded, and the last log event is the success event: the
`usingPrimary` debug note when its name equals the primary's, the
`fallbackUsed` warning otherwise. -/
theorem tryProfiles_success_event (cfg : Config) (primary agentType : String) :
    ∀ (names : List String) (behavior : Nat → ProviderOutcome)
      (le : Option Err) (m : Model),
    (tryProfiles cfg primary agentType behavior names le).result = some m →
    ∃ n pre1 pre2,
      (tryProfiles cfg primary agentType behavior names le).tried =
        pre1 ++ [n] ∧
      (tryProfiles cfg primary agentType behavior names le).logs =
        pre2 ++ [if n = primary then LogEvent.usingPrimary n agentType
                 else LogEvent.fallbackUsed primary n agentType] := by
  intro names
  induction names with
  | nil => intro behavior le m hm; rw [tryProfiles_nil] at hm; simp at hm
  | cons n rest ih =>
    intro behavior le m hm
    cases hl : List.lookup n cfg.profiles with
    | none =>
      rw [tryProfiles_cons_missing cfg primary agentType behavior n rest le
        hl] at hm ⊢
      obtain ⟨n', pre1, pre2, h1, h2⟩ :=
        ih (fun k => behavior (k + 1)) le m (by simpa using hm)
      exact ⟨n', n :: pre1, LogEvent.profileNotFound n :: pre2,
        by simp [h1], by simp [h2]⟩
    | some p =>
      cases hb : behavior 0 with
      | raises e =>
        rw [tryProfiles_cons_raises cfg primary agentType behavior n rest le
          p e hl hb] at hm ⊢
        obtain ⟨n', pre1, pre2, h1, h2⟩ :=
          ih (fun k => behavior (k + 1)) (some e) m (by simpa using hm)
        exact ⟨n', n :: pre1, LogEvent.providerError e ::
          LogEvent.profileFailedWarning n agentType e :: pre2,
          by simp [h1], by simp [h2]⟩
      | ret mo =>
        cases mo with
        | none =>
          rw [tryProfiles_cons_retNone cfg primary agentType behavior n rest
            le p hl hb] at hm ⊢
          obtain ⟨n', pre1, pre2, h1, h2⟩ :=
            ih (fun k => behavior (k + 1)) le m (by simpa using hm)
          exact ⟨n', n :: pre1, pre2, by simp [h1], by simp [h2]⟩
        | some m' =>
          rw [tryProfiles_cons_success cfg primary agentType behavior n rest
            le p m' hl hb] at hm ⊢
          exact ⟨n, [], [], by simp, by simp⟩

/-! ### Validation pass lemmas -/

/-- The validation pass, abstracted over the two mappings (definitionally
what `validateFallbackConfiguration` computes). -/
def fallbackWarnings (profiles : List (String × ProfileConfig))
    (agents : List (String × AgentConfig)) : List LogEvent :=
  agents.flatMap (fun p => (p.2.fallbacks.getD []).filterMap
    (fun f => if (List.lookup f profiles).isNone then
       some (LogEvent.fallbackNotDefined p.1 f) else none))

theorem validateFallbackConfiguration_eq (cfg : Config) :
    validateFallbackConfiguration cfg =
      fallbackWarnings cfg.profiles cfg.agents := rfl

/-- An event is emitted by the validation pass exactly when it is the
warning for some agent entry and some occurrence of a dangling fallback
name in that entry. -/
theorem fallbackWarnings_mem (profiles : List (String × ProfileConfig))
    (agents : List (String × AgentConfig)) (ev : LogEvent) :
    ev ∈ fallbackWarnings profiles agents ↔
    ∃ a ac f, (a, ac) ∈ agents ∧ f ∈ ac.fallbacks.getD [] ∧
      List.lookup f profiles = none ∧
      ev = LogEvent.fallbackNotDefined a f := by
  simp only [fallbackWarnings, List.mem_flatMap, List.mem_filterMap,
    Option.ite_none_right_eq_some, Option.some.injEq,
    Option.isNone_iff_eq_none]
  constructor
  · rintro ⟨⟨a, ac⟩, hmem, f, hf, hnone, hev⟩
    exact ⟨a, ac, f, hmem, hf, hnone, hev.symm⟩
  · rintro ⟨a, ac, f, hmem, hf, hnone, hev⟩
    exact ⟨⟨a, ac⟩, hmem, f, hf, hnone, hev.symm⟩

/-- In an association list with distinct keys, a key determines its value. -/
theorem assoc_key_unique {β : Type} :
    ∀ (l : List (String × β)), (l.map Prod.fst).Nodup →
    ∀ (a : String) (b c : β), (a, b) ∈ l → (a, c) ∈ l → b = c := by
  intro l
  induction l with
  | nil => intro _ a b c hb; simp at hb
  | cons x xs ih =>
    intro hN a b c hb hc
    rw [List.map_cons, List.nodup_cons] at hN
    rcases List.mem_cons.mp hb with hb1 | hb2 <;>
      rcases List.mem_cons.mp hc with hc1 | hc2
    · rw [← hb1] at hc1; exact (Prod.mk.injEq _ _ _ _ ▸ hc1.symm).2
    · exact absurd (List.mem_map_of_mem Prod.fst hc2)
        (by rw [← hb1] at hN; exact hN.1)
    · exact absurd (List.mem_map_of_mem Prod.fst hb2)
        (by rw [← hc1] at hN; exact hN.1)
    · exact ih hN.2 a b c hb2 hc2

/-- No warning about agents outside the scanned entries. -/
theorem fallbackWarnings_count_zero (profiles : List (String × ProfileConfig))
    (a f : String) (agents : List (String × AgentConfig))
    (h : a ∉ agents.map Prod.fst) :
    List.count (LogEvent.fallbackNotDefined a f)
      (fallbackWarnings profiles agents) = 0 := by
  rw [List.count_eq_zero]
  intro hmem
  obtain ⟨a', ac', f', hmem', _, _, hev⟩ :=
    (fallbackWarnings_mem profiles agents _).mp hmem
  cases hev
  exact h (List.mem_map_of_mem Prod.fst hmem')

/-- One agent entry's contribution: one warning per occurrence of the
dangling name in its fallback list. -/
theorem fallbackWarnings_count_entry (profiles : List (String × ProfileConfig))
    (a f : String) (hf : List.lookup f profiles = none) :
    ∀ fs : List String,
    List.count (LogEvent.fallbackNotDefined a f)
      (fs.filterMap (fun f' => if (List.lookup f' profiles).isNone then
        some (LogEvent.fallbackNotDefined a f') else none)) =
    List.count f fs := by
  intro fs
  induction fs with
  | nil => simp
  | cons f' fs ih =>
    by_cases hff : f' = f
    · subst hff
      simp [List.filterMap_cons, hf, List.count_cons, ih]
    · rcases hn : List.lookup f' profiles with _ | q
      · have : (LogEvent.fallbackNotDefined a f == LogEvent.fallbackNotDefined a f') = false := by
          simp [Ne.symm hff]
        simp [List.filterMap_cons, hn, List.count_cons, ih, this, hff]
      · simp [List.filterMap_cons, hn, List.count_cons, ih, hff]

/-- With distinct agent keys, the validation pass emits the dangling
fallback warning for agent `a` and name `f` once per occurrence of `f` in
that agent's fallback list. -/
theorem fallbackWarnings_count (profiles : List (String × ProfileConfig))
    (a f : String) (ac : AgentConfig)
    (hf : List.lookup f profiles = none) :
    ∀ agents : List (String × AgentConfig),
    (agents.map Prod.fst).Nodup → (a, ac) ∈ agents →
    List.count (LogEvent.fallbackNotDefined a f)
      (fallbackWarnings profiles agents) =
    List.count f (ac.fallbacks.getD []) := by
  intro agents
  induction agents with
  | nil => intro _ h; simp at h
  | cons x xs ih =>
    intro hN hmem
    rw [List.map_cons, List.nodup_cons] at hN
    rw [show fallbackWarnings profiles (x :: xs) =
      (x.2.fallbacks.getD []).filterMap
        (fun f' => if (List.lookup f' profiles).isNone then
          some (LogEvent.fallbackNotDefined x.1 f') else none) ++
      fallbackWarnings profiles xs from rfl, List.count_append]
    rcases List.mem_cons.mp hmem with heq | htail
    · rw [← heq]
      rw [fallbackWarnings_count_entry profiles a f hf,
        fallbackWarnings_count_zero profiles a f xs
          (by rw [← heq] at hN; exact hN.1)]
      simp
    · have hx1 : x.1 ≠ a := by
        intro h
        exact hN.1 (h ▸ List.mem_map_of_mem Prod.fst htail)
      rw [ih hN.2 htail]
      have hz : List.count (LogEvent.fallbackNotDefined a f)
          ((x.2.fallbacks.getD []).filterMap
            (fun f' => if (List.lookup f' profiles).isNone then
              some (LogEvent.fallbackNotDefined x.1 f') else none)) = 0 := by
        rw [List.count_eq_zero]
        intro hmem'
        obtain ⟨f', _, hsome⟩ := List.mem_filterMap.mp hmem'
        simp only [Option.ite_none_right_eq_some, Option.some.injEq] at hsome
        obtain ⟨-, hev⟩ := hsome
        injection hev with h1 h2
        exact hx1 h1
      omega

/-! ### Claims -/

/-- Claim C1: for every agent present in the configuration, `create_model`
builds the candidate list as exactly the agent's primary profile followed
by its declared fallbacks in order (empty when absent), duplicates kept and
order preserved, and attempts candidates in exactly that order: the
candidates attempted are always an initial segment of that list, and the
whole list when every candidate fails. -/
theorem C1_candidate_order (cfg : Config) (behavior : Nat → ProviderOutcome)
    (agentType : String) (ac : AgentConfig)
    (hag : List.lookup agentType cfg.agents = some ac) :
    (∃ t, (createModel cfg behavior agentType).tried ++ t =
      ac.profile :: ac.fallbacks.getD []) ∧
    ((∀ i (h : i < (ac.profile :: ac.fallbacks.getD []).length),
        candidateFails cfg (behavior i)
          ((ac.profile :: ac.fallbacks.getD [])[i])) →
      (createModel cfg behavior agentType).tried =
        ac.profile :: ac.fallbacks.getD []) := by
  have hcm : createModel cfg behavior agentType =
      tryProfiles cfg ac.profile agentType behavior (profileNames ac) none := by
    simp [createModel, hag]
  constructor
  · rw [hcm]
    exact tryProfiles_tried_initial cfg ac.profile agentType
      (profileNames ac) behavior none
  · intro hfail
    rw [hcm]
    exact (tryProfiles_exhausted cfg ac.profile agentType (profileNames ac)
      behavior none hfail).2.1

theorem C1_witness :
    (createModel cfgW behaviorAllRaise "ag").tried = ["p1", "p2", "p2"] :=
  (C1_candidate_order cfgW behaviorAllRaise "ag"
    { profile := "p1", fallbacks := some ["p2", "p2"] }
    (by decide)).2 (by decide)

/-- Claim C2: the loop returns the model of the first candidate whose
construction succeeds with a non-null model, with no further candidate
attempted (one construction call, whatever the remaining candidates); in
particular an agent whose primary profile succeeds gets exactly one
construction attempt. -/
theorem C2_first_success (cfg : Config) (behavior : Nat → ProviderOutcome) :
    (∀ (primary agentType n : String) (rest : List String) (le : Option Err)
       (p : ProfileConfig) (m : Model),
       List.lookup n cfg.profiles = some p →
       behavior 0 = ProviderOutcome.ret (some m) →
       tryProfiles cfg primary agentType behavior (n :: rest) le =
         { result := some m,
           logs := [if n = primary then LogEvent.usingPrimary n agentType
                    else LogEvent.fallbackUsed primary n agentType],
           tried := [n], attempts := 1, lastError := le }) ∧
    (∀ (agentType : String) (ac : AgentConfig) (p : ProfileConfig)
       (m : Model),
       List.lookup agentType cfg.agents = some ac →
       List.lookup ac.profile cfg.profiles = some p →
       behavior 0 = ProviderOutcome.ret (some m) →
       (createModel cfg behavior agentType).result = some m ∧
       (createModel cfg behavior agentType).attempts = 1 ∧
       (createModel cfg behavior agentType).tried = [ac.profile]) := by
  refine ⟨fun primary agentType n rest le p m hp hb =>
    tryProfiles_cons_success cfg primary agentType behavior n rest le p m
      hp hb, fun agentType ac p m hag hp hb => ?_⟩
  have hcm : createModel cfg behavior agentType =
      tryProfiles cfg ac.profile agentType behavior
        (ac.profile :: ac.fallbacks.getD []) none := by
    simp [createModel, hag, profileNames]
  rw [hcm, tryProfiles_cons_success cfg ac.profile agentType behavior
    ac.profile (ac.fallbacks.getD []) none p m hp hb]
  simp

theorem C2_witness :
    (createModel cfgOneProfile behaviorAllOk "a").result = some 7 ∧
    (createModel cfgOneProfile behaviorAllOk "a").attempts = 1 ∧
    (createModel cfgOneProfile behaviorAllOk "a").tried = ["p"] :=
  (C2_first_success cfgOneProfile behaviorAllOk).2 "a"
    { profile := "p" }
    { provider := "openai", api_key := "k", model := "gpt-4o" }
    7 (by decide) (by decide) rfl

/-- Claim C3: whatever the agent name and whatever each construction call
does (raise, return null, or succeed), `create_model` never lets an
exception escape: its caller-visible result is a model or the absence
signal, and when every construction call raises the result is still the
absence signal (all per-candidate errors are caught inside the loop). -/
theorem C3_no_propagation (cfg : Config) (behavior : Nat → ProviderOutcome)
    (agentType : String) :
    ((∃ m, (createModel cfg behavior agentType).result = some m) ∨
      (createModel cfg behavior agentType).result = none) ∧
    ((∀ i, ∃ e, behavior i = ProviderOutcome.raises e) →
      (createModel cfg behavior agentType).result = none) := by
  constructor
  · rcases h : (createModel cfg behavior agentType).result with _ | m
    · right; rfl
    · left; exact ⟨m, rfl⟩
  · intro hraise
    rcases hag : List.lookup agentType cfg.agents with _ | ac
    · simp [createModel, hag]
    · have hfail : ∀ i (h : i < (profileNames ac).length),
          candidateFails cfg (behavior i) ((profileNames ac)[i]) := by
        intro i h
        obtain ⟨e, he⟩ := hraise i
        simp [candidateFails, he]
      have h1 := (tryProfiles_exhausted cfg ac.profile agentType
        (profileNames ac) behavior none hfail).1
      simpa [createModel, hag] using h1

theorem C3_witness :
    (createModel cfgW behaviorAllRaise "ag").result = none :=
  (C3_no_propagation cfgW behaviorAllRaise "ag").2
    (fun _ => ⟨"boom", rfl⟩)

/-- Claim C4: for every agent name absent from the agent mapping (the
empty string included), `create_model` returns the absence signal at once,
with exactly the one agent-not-found error log naming that agent and zero
construction attempts. -/
theorem C4_agent_not_found (cfg : Config) (behavior : Nat → ProviderOutcome)
    (agentType : String)
    (h : List.lookup agentType cfg.agents = none) :
    createModel cfg behavior agentType =
      { result := none, logs := [LogEvent.agentNotFound agentType],
        tried := [], attempts := 0, lastError := none } := by
  simp [createModel, h]

theorem C4_witness :
    createModel cfgW behaviorAllNull "" =
      { result := none, logs := [LogEvent.agentNotFound ""],
        tried := [], attempts := 0, lastError := none } :=
  C4_agent_not_found cfgW behaviorAllNull "" (by decide)

/-- Claim C5: when every candidate fails, `create_model` returns the
absence signal after one construction call per listed candidate (duplicates
included), and its final log event is the exhaustion error naming the
agent: `allProfilesFailed` carrying the most recent raised error when some
attempt raised, `noValidProfiles` when no attempt raised (the source only
treats exceptions as errors for `last_error`; `lastErrAux` is exactly that
accumulation). -/
theorem C5_all_fail (cfg : Config) (behavior : Nat → ProviderOutcome)
    (agentType : String) (ac : AgentConfig)
    (hag : List.lookup agentType cfg.agents = some ac)
    (hfail : ∀ i (h : i < (profileNames ac).length),
      candidateFails cfg (behavior i) ((profileNames ac)[i])) :
    (createModel cfg behavior agentType).result = none ∧
    (createModel cfg behavior agentType).attempts =
      (profileNames ac).length ∧
    ∃ pre, (createModel cfg behavior agentType).logs =
      pre ++ [exhaustionLog agentType
        (lastErrAux cfg behavior (profileNames ac) none)] := by
  have hcm : createModel cfg behavior agentType =
      tryProfiles cfg ac.profile agentType behavior (profileNames ac) none := by
    simp [createModel, hag]
  obtain ⟨h1, -, h3, -, pre, h5⟩ := tryProfiles_exhausted cfg ac.profile
    agentType (profileNames ac) behavior none hfail
  exact ⟨by rw [hcm]; exact h1, by rw [hcm]; exact h3, pre,
    by rw [hcm]; exact h5⟩

theorem C5_witness :
    (createModel cfgW behaviorAllRaise "ag").result = none ∧
    (createModel cfgW behaviorAllRaise "ag").attempts = 3 ∧
    ∃ pre, (createModel cfgW behaviorAllRaise "ag").logs =
      pre ++ [LogEvent.allProfilesFailed "ag" "boom"] :=
  C5_all_fail cfgW behaviorAllRaise "ag"
    { profile := "p1", fallbacks := some ["p2", "p2"] }
    (by decide) (by decide)

/-- Claim C6, counterexample: a candidate whose profile name is absent is
NOT recorded as the "last error".  Agent `a` has the single dangling
candidate `p`; after the scan `last_error` is still `None` and the run
ends with the `noValidProfiles` epilogue, with no error attached — the
claim requires a recorded `ProfileNotFound` last error. -/
theorem C6_counterexample :
    (createModel cfgDanglingPrimary behaviorAllNull "a").lastError = none ∧
    (createModel cfgDanglingPrimary behaviorAllNull "a").logs =
      [LogEvent.profileNotFound "p", LogEvent.noValidProfiles "a"] := by
  decide

/-- Claim C6 as amended: a candidate whose profile name is absent from the
profile mapping is treated as failed — `_create_model_for_profile` logs
the profile-not-found error and returns `None` — and the scan continues
with the next candidate rather than aborting, but the failure is NOT
recorded as the last error: the result and the final `last_error` are
exactly those of scanning the remaining candidates with the incoming
`last_error` unchanged. -/
theorem C6_amended (cfg : Config) (primary agentType : String)
    (behavior : Nat → ProviderOutcome) (n : String) (rest : List String)
    (le : Option Err) (h : List.lookup n cfg.profiles = none) :
    (tryProfiles cfg primary agentType behavior (n :: rest) le).result =
      (tryProfiles cfg primary agentType (fun k => behavior (k + 1))
        rest le).result ∧
    (tryProfiles cfg primary agentType behavior (n :: rest) le).lastError =
      (tryProfiles cfg primary agentType (fun k => behavior (k + 1))
        rest le).lastError ∧
    (tryProfiles cfg primary agentType behavior (n :: rest) le).attempts =
      (tryProfiles cfg primary agentType (fun k => behavior (k + 1))
        rest le).attempts + 1 ∧
    LogEvent.profileNotFound n ∈
      (tryProfiles cfg primary agentType behavior (n :: rest) le).logs := by
  rw [tryProfiles_cons_missing cfg primary agentType behavior n rest le h]
  exact ⟨by simp, by simp, by simp, by simp⟩

theorem C6_amended_witness :
    (tryProfiles cfgDanglingPrimary "p" "a" behaviorAllNull ["p"]
      none).result =
      (tryProfiles cfgDanglingPrimary "p" "a"
        (fun k => behaviorAllNull (k + 1)) [] none).result ∧
    (tryProfiles cfgDanglingPrimary "p" "a" behaviorAllNull ["p"]
      none).lastError =
      (tryProfiles cfgDanglingPrimary "p" "a"
        (fun k => behaviorAllNull (k + 1)) [] none).lastError ∧
    (tryProfiles cfgDanglingPrimary "p" "a" behaviorAllNull ["p"]
      none).attempts =
      (tryProfiles cfgDanglingPrimary "p" "a"
        (fun k => behaviorAllNull (k + 1)) [] none).attempts + 1 ∧
    LogEvent.profileNotFound "p" ∈
      (tryProfiles cfgDanglingPrimary "p" "a" behaviorAllNull ["p"]
        none).logs :=
  C6_amended cfgDanglingPrimary "p" "a" behaviorAllNull "p" [] none
    (by decide)

/-- Claim C7, counterexample: a candidate whose construction returns null
is passed over silently.  Agent `a`'s single candidate `p` exists and its
construction returns `None`: the run emits no per-candidate warning (its
only log is the exhaustion error) and `last_error` stays `None`,
contradicting the claim for the "returns null" case. -/
theorem C7_counterexample :
    (createModel cfgOneProfile behaviorAllNull "a").logs =
      [LogEvent.noValidProfiles "a"] ∧
    (createModel cfgOneProfile behaviorAllNull "a").lastError = none := by
  decide

/-- Claim C7 as amended: a candidate whose construction RAISES records the
raised error as the new "last error", emits the warning naming the failed
profile and the agent, and continues with the next candidate; a candidate
whose construction returns null (profile present, provider returns `None`)
continues with the next candidate silently — no warning is emitted and the
last error is not updated. -/
theorem C7_amended (cfg : Config) (primary agentType : String)
    (behavior : Nat → ProviderOutcome) (n : String) (rest : List String)
    (le : Option Err) (p : ProfileConfig)
    (hp : List.lookup n cfg.profiles = some p) :
    (∀ e, behavior 0 = ProviderOutcome.raises e →
      (tryProfiles cfg primary agentType behavior (n :: rest) le).result =
        (tryProfiles cfg primary agentType (fun k => behavior (k + 1))
          rest (some e)).result ∧
      (tryProfiles cfg primary agentType behavior (n :: rest) le).lastError =
        (tryProfiles cfg primary agentType (fun k => behavior (k + 1))
          rest (some e)).lastError ∧
      LogEvent.profileFailedWarning n agentType e ∈
        (tryProfiles cfg primary agentType behavior (n :: rest) le).logs) ∧
    (behavior 0 = ProviderOutcome.ret none →
      (tryProfiles cfg primary agentType behavior (n :: rest) le).result =
        (tryProfiles cfg primary agentType (fun k => behavior (k + 1))
          rest le).result ∧
      (tryProfiles cfg primary agentType behavior (n :: rest) le).lastError =
        (tryProfiles cfg primary agentType (fun k => behavior (k + 1))
          rest le).lastError ∧
      (tryProfiles cfg primary agentType behavior (n :: rest) le).logs =
        (tryProfiles cfg primary agentType (fun k => behavior (k + 1))
          rest le).logs) := by
  constructor
  · intro e hb
    rw [tryProfiles_cons_raises cfg primary agentType behavior n rest le
      p e hp hb]
    exact ⟨by simp, by simp, by simp⟩
  · intro hb
    rw [tryProfiles_cons_retNone cfg primary agentType behavior n rest le
      p hp hb]
    exact ⟨by simp, by simp, by simp⟩

theorem C7_amended_witness :
    (tryProfiles cfgOneProfile "p" "a" behaviorAllRaise ["p"]
      none).result =
      (tryProfiles cfgOneProfile "p" "a"
        (fun k => behaviorAllRaise (k + 1)) [] (some "boom")).result ∧
    (tryProfiles cfgOneProfile "p" "a" behaviorAllRaise ["p"]
      none).lastError =
      (tryProfiles cfgOneProfile "p" "a"
        (fun k => behaviorAllRaise (k + 1)) [] (some "boom")).lastError ∧
    LogEvent.profileFailedWarning "p" "a" "boom" ∈
      (tryProfiles cfgOneProfile "p" "a" behaviorAllRaise ["p"]
        none).logs :=
  (C7_amended cfgOneProfile "p" "a" behaviorAllRaise "p" [] none
    { provider := "openai", api_key := "k", model := "gpt-4o" }
    (by decide)).1 "boom" rfl

/-- Claim C8, counterexample: the success branch tests the succeeding
profile's NAME against the primary, not the candidate index.  Agent `a`
has primary `p1` and the same name `p1` as its only fallback; the first
construction call raises and the second (candidate index 1) succeeds, yet
the run emits the `usingPrimary` debug note and no `fallbackUsed` warning
— the claim requires a warning for any success at index above zero. -/
theorem C8_counterexample :
    (createModel cfgDupPrimary behaviorRetryOk "a").result = some 7 ∧
    (createModel cfgDupPrimary behaviorRetryOk "a").attempts = 2 ∧
    (createModel cfgDupPrimary behaviorRetryOk "a").logs =
      [LogEvent.providerError "boom",
       LogEvent.profileFailedWarning "p1" "a" "boom",
       LogEvent.usingPrimary "p1" "a"] := by
  decide

/-- Claim C8 as amended: when resolution succeeds, the run's final log
event is chosen by NAME equality with the agent's primary profile, not by
candidate index: the `fallbackUsed` warning naming the primary and the
succeeding profile, attributed to the agent, when the succeeding
candidate's name differs from the primary's; the `usingPrimary` debug note
naming the agent and the profile when the succeeding candidate bears the
primary's name — even at a later index (duplicate of the primary). -/
theorem C8_amended (cfg : Config) (behavior : Nat → ProviderOutcome)
    (agentType : String) (ac : AgentConfig) (m : Model)
    (hag : List.lookup agentType cfg.agents = some ac)
    (hm : (createModel cfg behavior agentType).result = some m) :
    ∃ n pre1 pre2,
      (createModel cfg behavior agentType).tried = pre1 ++ [n] ∧
      (createModel cfg behavior agentType).logs =
        pre2 ++ [if n = ac.profile then LogEvent.usingPrimary n agentType
                 else LogEvent.fallbackUsed ac.profile n agentType] := by
  have hcm : createModel cfg behavior agentType =
      tryProfiles cfg ac.profile agentType behavior (profileNames ac) none := by
    simp [createModel, hag]
  rw [hcm] at hm ⊢
  exact tryProfiles_success_event cfg ac.profile agentType (profileNames ac)
    behavior none m hm

theorem C8_amended_witness :
    ∃ n pre1 pre2,
      (createModel cfgDupPrimary behaviorRetryOk "a").tried = pre1 ++ [n] ∧
      (createModel cfgDupPrimary behaviorRetryOk "a").logs =
        pre2 ++ [if n = "p1" then LogEvent.usingPrimary n "a"
                 else LogEvent.fallbackUsed "p1" n "a"] :=
  C8_amended cfgDupPrimary behaviorRetryOk "a"
    { profile := "p1", fallbacks := some ["p1"] } 7 (by decide) (by decide)

/-- Claim C9: resolver construction always succeeds (the validation pass
is a total function and leaves the configuration untouched) and — under
the dict invariant that agent keys are distinct — emits, for every agent
and every occurrence of a fallback name absent from the profile mapping,
exactly one warning identifying the agent and the missing name (the count
of that warning equals the number of occurrences of the name in the
agent's fallback list), and emits nothing else (every emitted event is
such a warning for a genuine dangling fallback occurrence). -/
theorem C9_validation (cfg : Config)
    (hN : (cfg.agents.map Prod.fst).Nodup) :
    (mkModelFactory cfg).1 = cfg ∧
    (∀ (a : String) (ac : AgentConfig) (f : String),
      (a, ac) ∈ cfg.agents → List.lookup f cfg.profiles = none →
      List.count (LogEvent.fallbackNotDefined a f) (mkModelFactory cfg).2 =
        List.count f (ac.fallbacks.getD [])) ∧
    (∀ ev ∈ (mkModelFactory cfg).2, ∃ a ac f,
      (a, ac) ∈ cfg.agents ∧ f ∈ ac.fallbacks.getD [] ∧
      List.lookup f cfg.profiles = none ∧
      ev = LogEvent.fallbackNotDefined a f) := by
  refine ⟨rfl, fun a ac f hmem hf => ?_, fun ev hev => ?_⟩
  · show List.count _ (validateFallbackConfiguration cfg) = _
    rw [validateFallbackConfiguration_eq]
    exact fallbackWarnings_count cfg.profiles a f ac hf cfg.agents hN hmem
  · exact (fallbackWarnings_mem cfg.profiles cfg.agents ev).mp hev

theorem C9_witness :
    (mkModelFactory cfgW).1 = cfgW ∧
    List.count (LogEvent.fallbackNotDefined "ag" "p2")
      (mkModelFactory cfgW).2 = 2 :=
  ⟨(C9_validation cfgW (by decide)).1,
   (C9_validation cfgW (by decide)).2.1 "ag"
     { profile := "p1", fallbacks := some ["p2", "p2"] } "p2"
     (by decide) (by decide)⟩

/-- Claim C10: the construction-time validation pass inspects only
fallback names, never primaries: for an agent whose primary profile is
dangling while all its fallback names resolve, no validation warning
about that agent is emitted (given distinct agent keys); the dangling
primary surfaces only during resolution, where
`_create_model_for_profile` logs the profile-not-found error and returns
`None` for that candidate, whatever the provider would have done. -/
theorem C10_primary_not_validated (cfg : Config) (agentName : String)
    (ac : AgentConfig)
    (hN : (cfg.agents.map Prod.fst).Nodup)
    (hmem : (agentName, ac) ∈ cfg.agents)
    (hprimary : List.lookup ac.profile cfg.profiles = none)
    (hfb : ∀ f ∈ ac.fallbacks.getD [],
      (List.lookup f cfg.profiles).isSome) :
    (∀ f, LogEvent.fallbackNotDefined agentName f ∉
      validateFallbackConfiguration cfg) ∧
    (∀ o, createModelForProfile cfg o ac.profile =
      (Except.ok none, [LogEvent.profileNotFound ac.profile])) := by
  constructor
  · intro f hmem'
    rw [validateFallbackConfiguration_eq] at hmem'
    obtain ⟨a', ac', f', hmem2, hf', hnone, hev⟩ :=
      (fallbackWarnings_mem cfg.profiles cfg.agents _).mp hmem'
    injection hev with h1 h2
    have hac : ac' = ac :=
      assoc_key_unique cfg.agents hN agentName ac' ac (h1 ▸ hmem2) hmem
    have hs := hfb f' (hac ▸ hf')
    rw [hnone] at hs
    simp at hs
  · intro o
    exact createModelForProfile_missing cfg o ac.profile hprimary

theorem C10_witness :
    LogEvent.fallbackNotDefined "a" "q" ∉
      validateFallbackConfiguration cfgPrimaryOnlyDangling ∧
    createModelForProfile cfgPrimaryOnlyDangling (ProviderOutcome.ret none)
      "missing" =
      (Except.ok none, [LogEvent.profileNotFound "missing"]) :=
  ⟨(C10_primary_not_validated cfgPrimaryOnlyDangling "a"
      { profile := "missing", fallbacks := some ["q"] }
      (by decide) (by decide) (by decide) (by decide)).1 "q",
   (C10_primary_not_validated cfgPrimaryOnlyDangling "a"
      { profile := "missing", fallbacks := some ["q"] }
      (by decide) (by decide) (by decide) (by decide)).2
     (ProviderOutcome.ret none)⟩
